import Mathlib

/-!
# Verification of the GDPC interface utility layer

Shallow embedding of `src/gdpc_interface/utils.py` from the
minecraft-mcp-gdpc repository: the coordinate conversion helpers
(`vec3i_to_tuple`, `tuple_to_vec3i`) and the build-area containment
predicates (`check_build_area`, `check_box_in_build_area`), together
with proofs of the specified properties.

Python values reaching `vec3i_to_tuple` are loosely typed; we model the
relevant shapes with the inductive `PyVec` (objects carrying x/y/z
attributes, lists, tuples, anything else) over scalar components
`PyScalar`, with floats allowed to be non-finite. Exceptions are
modelled with `Except PyExc`, distinguishing the `TypeError` and
`ValueError` caught by the `except` clauses from the `OverflowError`
raised by `int()` on an infinite float, which those clauses let
through.
-/

set_option autoImplicit false

namespace GdpcInterface

/-- An integer 3-vector (models glm `ivec3`). -/
structure Vec3i where
  x : Int
  y : Int
  z : Int
deriving DecidableEq, Repr

/-- An axis-aligned box: `offset` is the minimum corner, `size` the extents
(models `gdpc.vector_tools.Box`). The constructor performs no validation,
matching the source, which builds boxes without checking size positivity. -/
structure Box where
  offset : Vec3i
  size : Vec3i
deriving DecidableEq, Repr

instance : Add Vec3i := ⟨fun a b => ⟨a.x + b.x, a.y + b.y, a.z + b.z⟩⟩

instance : Sub Vec3i := ⟨fun a b => ⟨a.x - b.x, a.y - b.y, a.z - b.z⟩⟩

/-- The glm `ivec3` constructor. -/
def ivec3 (x y z : Int) : Vec3i := ⟨x, y, z⟩

/-- Modelled from the spec: `Box.contains` lives in the external GDPC
library, not in this repository. The source comment in `utils.py`
("Box.contains checks if a point is within [offset, offset + size)") and
spec section 3 state that it tests
`offset.axis <= p.axis < offset.axis + size.axis` on each axis. -/
def Box.contains (b : Box) (p : Vec3i) : Bool :=
  (b.offset.x ≤ p.x && p.x < b.offset.x + b.size.x) &&
  (b.offset.y ≤ p.y && p.y < b.offset.y + b.size.y) &&
  (b.offset.z ≤ p.z && p.z < b.offset.z + b.size.z)

/-- The Python exception classes the conversion helpers can raise:
`TypeError` and `ValueError` are caught by the
`except (ValueError, TypeError)` clauses in `utils.py`; `OverflowError`
(raised by `int()` on an infinite float) is not. -/
inductive PyExc where
  | typeError
  | valueError
  | overflowError
deriving DecidableEq, Repr

/-- A CPython float: either a finite value (modelled exactly as a
rational) or one of the non-finite values `inf`, `-inf`, `nan`. -/
inductive PyFloat where
  | finite (q : Rat)
  | inf
  | negInf
  | nan
deriving DecidableEq, Repr

/-- A scalar component of a loosely-typed Python vector: an `int`, a
`float`, a string, or `None` standing for any other non-numeric
object. -/
inductive PyScalar where
  | pyInt (n : Int)
  | pyFloat (f : PyFloat)
  | pyStr (s : String)
  | pyNone
deriving DecidableEq, Repr

/-- Python `int()` applied to a finite float truncates toward zero
(floor for nonnegative values, ceiling for negative ones). -/
def pyFloatToInt (q : Rat) : Int :=
  if 0 ≤ q then ⌊q⌋ else ⌈q⌉

/-- Python `int()` on a scalar: ints pass through; finite floats
truncate toward zero; `int(float(±inf))` raises `OverflowError` and
`int(float(nan))` raises `ValueError`; strings parse as integer
literals, raising `ValueError` when they do not parse; any other object
raises `TypeError`. -/
def pyToInt : PyScalar → Except PyExc Int
  | .pyInt n => .ok n
  | .pyFloat (.finite q) => .ok (pyFloatToInt q)
  | .pyFloat .inf => .error .overflowError
  | .pyFloat .negInf => .error .overflowError
  | .pyFloat .nan => .error .valueError
  | .pyStr s =>
    match s.toInt? with
    | some n => .ok n
    | none => .error .valueError
  | .pyNone => .error .typeError

/-- A loosely-typed Python value handed to the vector conversions: an
object with `x`/`y`/`z` attributes (such as `ivec3`), a list, a tuple,
or any other object. -/
inductive PyVec where
  | obj (x y z : PyScalar)
  | pyList (elems : List PyScalar)
  | pyTuple (elems : List PyScalar)
  | other
deriving DecidableEq, Repr

/-- Conversion of three scalars with `int()`, left to right, stopping at
the first raised exception: the shape of
`return int(a), int(b), int(c)` shared by both branches of
`vec3i_to_tuple` and by `tuple_to_vec3i`. -/
def conv3 (x y z : PyScalar) : Except PyExc (Int × Int × Int) :=
  match pyToInt x with
  | .error e => .error e
  | .ok a =>
    match pyToInt y with
    | .error e => .error e
    | .ok b =>
      match pyToInt z with
      | .error e => .error e
      | .ok c => .ok (a, b, c)

/-- The `except (ValueError, TypeError)` clause of `utils.py`: a caught
`ValueError` or `TypeError` is re-raised as `TypeError`; any other
exception (`OverflowError`) propagates unchanged. -/
def catchValueTypeError {α : Type} : Except PyExc α → Except PyExc α
  | .error .valueError => .error .typeError
  | .error .typeError => .error .typeError
  | r => r

/-- The body of the `try` block of `vec3i_to_tuple`: an object with
`x`/`y`/`z` attributes has each attribute converted with `int()`; a list
or tuple of length 3 has each component converted with `int()`; every
other input raises `TypeError` directly. -/
def vec3i_to_tuple_body : PyVec → Except PyExc (Int × Int × Int)
  | .obj x y z => conv3 x y z
  | .pyList es =>
    match es with
    | [a, b, c] => conv3 a b c
    | _ => .error .typeError
  | .pyTuple es =>
    match es with
    | [a, b, c] => conv3 a b c
    | _ => .error .typeError
  | .other => .error .typeError

/-- `vec3i_to_tuple` from `utils.py`: the `try` body wrapped in the
`except (ValueError, TypeError)` handler, which logs and re-raises
`TypeError`; an `OverflowError` from `int()` on an infinite float
escapes the handler. -/
def vec3i_to_tuple (v : PyVec) : Except PyExc (Int × Int × Int) :=
  catchValueTypeError (vec3i_to_tuple_body v)

/-- `tuple_to_vec3i` from `utils.py`: the input must be a tuple of
length 3 (lists are rejected by the `isinstance` check, with a
`TypeError` raised outside the `try`); each component goes through
`int()` inside a `try` with the same `except (ValueError, TypeError)`
handler, and the result is packed into an `ivec3`. -/
def tuple_to_vec3i : PyVec → Except PyExc Vec3i
  | .pyTuple [a, b, c] =>
    catchValueTypeError
      (match conv3 a b c with
       | .ok (x, y, z) => .ok (Vec3i.mk x y z)
       | .error e => .error e)
  | _ => .error .typeError

/-- Injection of an `ivec3` back into the loosely-typed world: it is an
object with integer `x`/`y`/`z` attributes. -/
def ivec3ToPy (v : Vec3i) : PyVec :=
  .obj (.pyInt v.x) (.pyInt v.y) (.pyInt v.z)

/-- `check_build_area` from `utils.py`: the position is normalised with
`vec3i_to_tuple` (propagating any exception it raises), rebuilt as an
`ivec3`, and tested with `Box.contains`. -/
def check_build_area (pos : PyVec) (build_area : Box) : Except PyExc Bool :=
  match vec3i_to_tuple pos with
  | .ok (a, b, c) => .ok (build_area.contains ⟨a, b, c⟩)
  | .error e => .error e

/-- `check_box_in_build_area` from `utils.py`: the minimum corner of the
box and its inclusive maximum corner `offset + size - ivec3(1,1,1)` are
both tested with `Box.contains`. -/
def check_box_in_build_area (box : Box) (build_area : Box) : Bool :=
  let start_corner := box.offset
  let end_corner_inclusive := box.offset + box.size - ivec3 1 1 1
  build_area.contains start_corner && build_area.contains end_corner_inclusive

/-- The point-in-region predicate written from the words of the spec:
`region.offset.axis <= point.axis < region.offset.axis + region.size.axis`
for all three axes. -/
def pointInRegionSpec (p : Vec3i) (r : Box) : Prop :=
  (r.offset.x ≤ p.x ∧ p.x < r.offset.x + r.size.x) ∧
  (r.offset.y ≤ p.y ∧ p.y < r.offset.y + r.size.y) ∧
  (r.offset.z ≤ p.z ∧ p.z < r.offset.z + r.size.z)

instance (p : Vec3i) (r : Box) : Decidable (pointInRegionSpec p r) := by
  unfold pointInRegionSpec; infer_instance

/-- The notion from the spec of "can be interpreted as three integers": an
object whose three attributes all convert with `int()`, or a list or
tuple of exactly three components that all convert with `int()`. -/
def interpretableAsThreeInts (v : PyVec) : Prop :=
  (∃ x y z, v = .obj x y z ∧
    (pyToInt x).isOk ∧ (pyToInt y).isOk ∧ (pyToInt z).isOk) ∨
  (∃ es, (v = .pyList es ∨ v = .pyTuple es) ∧ es.length = 3 ∧
    ∀ e ∈ es, (pyToInt e).isOk)

/-- The first failing `int()` conversion of a length-3 sequence, in the
left-to-right order of the source, raises `OverflowError` (the component
is an infinite float). -/
def seqOverflowFirst : List PyScalar → Prop
  | [a, b, c] =>
    pyToInt a = .error .overflowError ∨
    ((pyToInt a).isOk ∧ pyToInt b = .error .overflowError) ∨
    ((pyToInt a).isOk ∧ (pyToInt b).isOk ∧ pyToInt c = .error .overflowError)
  | _ => False

/-- The first failing component conversion of the input is an
`OverflowError` (an infinite float): the only configuration in which an
exception escapes the `except (ValueError, TypeError)` handler of
`vec3i_to_tuple`. -/
def overflowFirst : PyVec → Prop
  | .obj x y z => seqOverflowFirst [x, y, z]
  | .pyList es => seqOverflowFirst es
  | .pyTuple es => seqOverflowFirst es
  | .other => False

/-- The module logger, threaded explicitly: the `except` clause of
`vec3i_to_tuple` writes one `logger.error` record before re-raising
`TypeError`; an escaping `OverflowError` writes nothing. -/
def vec3i_to_tupleSt (v : PyVec) (log : List String) :
    Except PyExc (Int × Int × Int) × List String :=
  match vec3i_to_tuple v with
  | .ok t => (.ok t, log)
  | .error .typeError =>
    (.error .typeError, log ++ ["Error converting vector to tuple"])
  | .error e => (.error e, log)

/-- `check_build_area` with the logger state threaded explicitly; the
only state the source function can touch is the module logger, written
inside `vec3i_to_tuple` on the conversion-error path. -/
def check_build_areaSt (pos : PyVec) (build_area : Box) (log : List String) :
    Except PyExc Bool × List String :=
  match vec3i_to_tupleSt pos log with
  | (.ok (a, b, c), log2) => (.ok (build_area.contains ⟨a, b, c⟩), log2)
  | (.error e, log2) => (.error e, log2)

/-- `check_box_in_build_area` with the logger state threaded explicitly;
the source function performs no logging and touches no state at all. -/
def check_box_in_build_areaSt (box : Box) (build_area : Box) (log : List String) :
    Bool × List String :=
  (check_box_in_build_area box build_area, log)

/-! ## Helper lemmas -/

@[simp] theorem Vec3i.add_x (a b : Vec3i) : (a + b).x = a.x + b.x := rfl

@[simp] theorem Vec3i.add_y (a b : Vec3i) : (a + b).y = a.y + b.y := rfl

@[simp] theorem Vec3i.add_z (a b : Vec3i) : (a + b).z = a.z + b.z := rfl

@[simp] theorem Vec3i.sub_x (a b : Vec3i) : (a - b).x = a.x - b.x := rfl

@[simp] theorem Vec3i.sub_y (a b : Vec3i) : (a - b).y = a.y - b.y := rfl

@[simp] theorem Vec3i.sub_z (a b : Vec3i) : (a - b).z = a.z - b.z := rfl

@[simp] theorem ivec3_x (x y z : Int) : (ivec3 x y z).x = x := rfl

@[simp] theorem ivec3_y (x y z : Int) : (ivec3 x y z).y = y := rfl

@[simp] theorem ivec3_z (x y z : Int) : (ivec3 x y z).z = z := rfl

theorem Box.contains_iff (r : Box) (p : Vec3i) :
    r.contains p = true ↔ pointInRegionSpec p r := by
  simp only [Box.contains, pointInRegionSpec, Bool.and_eq_true, decide_eq_true_eq]
  tauto

theorem checkBox_true_iff (b r : Box) :
    check_box_in_build_area b r = true ↔
      pointInRegionSpec b.offset r ∧
      pointInRegionSpec (b.offset + b.size - ivec3 1 1 1) r := by
  simp only [check_box_in_build_area, Bool.and_eq_true, Box.contains_iff]

@[simp] theorem catch_ok_iff {α : Type} (r : Except PyExc α) (t : α) :
    catchValueTypeError r = Except.ok t ↔ r = Except.ok t := by
  rcases r with (_ | _ | _) | a <;> simp [catchValueTypeError]

@[simp] theorem catch_overflow_iff {α : Type} (r : Except PyExc α) :
    catchValueTypeError r = Except.error PyExc.overflowError ↔
      r = Except.error PyExc.overflowError := by
  rcases r with (_ | _ | _) | a <;> simp [catchValueTypeError]

theorem catch_ne_valueError {α : Type} (r : Except PyExc α) :
    catchValueTypeError r ≠ Except.error PyExc.valueError := by
  rcases r with (_ | _ | _) | a <;> simp [catchValueTypeError]

theorem conv3_ok_iff (x y z : PyScalar) :
    (∃ t, conv3 x y z = Except.ok t) ↔
      (pyToInt x).isOk ∧ (pyToInt y).isOk ∧ (pyToInt z).isOk := by
  rcases hx : pyToInt x with ex | a <;> rcases hy : pyToInt y with ey | b <;>
    rcases hz : pyToInt z with ez | c <;>
      simp [conv3, hx, hy, hz, Except.isOk, Except.toBool]

theorem conv3_ok_val (x y z : PyScalar) (a b c : Int)
    (hx : pyToInt x = Except.ok a) (hy : pyToInt y = Except.ok b)
    (hz : pyToInt z = Except.ok c) :
    conv3 x y z = Except.ok (a, b, c) := by
  simp [conv3, hx, hy, hz]

theorem conv3_overflow_iff (x y z : PyScalar) :
    conv3 x y z = Except.error PyExc.overflowError ↔ seqOverflowFirst [x, y, z] := by
  rcases hx : pyToInt x with (_ | _ | _) | a <;>
    rcases hy : pyToInt y with (_ | _ | _) | b <;>
      rcases hz : pyToInt z with (_ | _ | _) | c <;>
        simp [conv3, seqOverflowFirst, hx, hy, hz, Except.isOk, Except.toBool]

theorem body_ok_iff (v : PyVec) :
    (∃ t, vec3i_to_tuple_body v = Except.ok t) ↔ interpretableAsThreeInts v := by
  cases v with
  | obj x y z =>
    rw [show vec3i_to_tuple_body (PyVec.obj x y z) = conv3 x y z from rfl,
      conv3_ok_iff]
    constructor
    · rintro ⟨h1, h2, h3⟩
      exact Or.inl ⟨x, y, z, rfl, h1, h2, h3⟩
    · rintro (⟨x2, y2, z2, heq, h1, h2, h3⟩ | ⟨es, heq | heq, _, _⟩)
      · injection heq with e1 e2 e3
        subst e1; subst e2; subst e3
        exact ⟨h1, h2, h3⟩
      · cases heq
      · cases heq
  | pyList es =>
    rcases es with _ | ⟨a, _ | ⟨b, _ | ⟨c, _ | ⟨d, es⟩⟩⟩⟩
    · simp [vec3i_to_tuple_body, interpretableAsThreeInts]
    · simp [vec3i_to_tuple_body, interpretableAsThreeInts]
    · simp [vec3i_to_tuple_body, interpretableAsThreeInts]
    · rw [show vec3i_to_tuple_body (PyVec.pyList [a, b, c]) = conv3 a b c from rfl,
        conv3_ok_iff]
      simp [interpretableAsThreeInts]
    · simp [vec3i_to_tuple_body, interpretableAsThreeInts]
  | pyTuple es =>
    rcases es with _ | ⟨a, _ | ⟨b, _ | ⟨c, _ | ⟨d, es⟩⟩⟩⟩
    · simp [vec3i_to_tuple_body, interpretableAsThreeInts]
    · simp [vec3i_to_tuple_body, interpretableAsThreeInts]
    · simp [vec3i_to_tuple_body, interpretableAsThreeInts]
    · rw [show vec3i_to_tuple_body (PyVec.pyTuple [a, b, c]) = conv3 a b c from rfl,
        conv3_ok_iff]
      simp [interpretableAsThreeInts]
    · simp [vec3i_to_tuple_body, interpretableAsThreeInts]
  | other => simp [vec3i_to_tuple_body, interpretableAsThreeInts]

theorem body_overflow_iff (v : PyVec) :
    vec3i_to_tuple_body v = Except.error PyExc.overflowError ↔ overflowFirst v := by
  cases v with
  | obj x y z => exact conv3_overflow_iff x y z
  | pyList es =>
    rcases es with _ | ⟨a, _ | ⟨b, _ | ⟨c, _ | ⟨d, es⟩⟩⟩⟩
    · simp [vec3i_to_tuple_body, overflowFirst, seqOverflowFirst]
    · simp [vec3i_to_tuple_body, overflowFirst, seqOverflowFirst]
    · simp [vec3i_to_tuple_body, overflowFirst, seqOverflowFirst]
    · exact conv3_overflow_iff a b c
    · simp [vec3i_to_tuple_body, overflowFirst, seqOverflowFirst]
  | pyTuple es =>
    rcases es with _ | ⟨a, _ | ⟨b, _ | ⟨c, _ | ⟨d, es⟩⟩⟩⟩
    · simp [vec3i_to_tuple_body, overflowFirst, seqOverflowFirst]
    · simp [vec3i_to_tuple_body, overflowFirst, seqOverflowFirst]
    · simp [vec3i_to_tuple_body, overflowFirst, seqOverflowFirst]
    · exact conv3_overflow_iff a b c
    · simp [vec3i_to_tuple_body, overflowFirst, seqOverflowFirst]
  | other => simp [vec3i_to_tuple_body, overflowFirst]

/-! ## Claim theorems -/

/-- C1: for every integer 3-vector point `p` and region `r`,
`check_build_area` returns true iff
`r.offset.axis <= p.axis < r.offset.axis + r.size.axis` on all three
axes (minimum corner inclusive, maximum corner exclusive). -/
theorem check_build_area_iff_pointInRegion (p : Vec3i) (r : Box) :
    check_build_area (ivec3ToPy p) r = Except.ok true ↔ pointInRegionSpec p r := by
  have h : check_build_area (ivec3ToPy p) r = Except.ok (r.contains p) := rfl
  rw [h]
  simp only [Except.ok.injEq]
  exact Box.contains_iff r p

/-- C2: for every candidate box `b` and region `r`,
`check_box_in_build_area` returns true iff both the minimum corner
`b.offset` and the inclusive maximum corner `b.offset + b.size - (1,1,1)`
satisfy the point-in-region predicate for `r`. -/
theorem check_box_in_build_area_iff_corners (b r : Box) :
    check_box_in_build_area b r = true ↔
      pointInRegionSpec b.offset r ∧
      pointInRegionSpec (b.offset + b.size - ivec3 1 1 1) r :=
  checkBox_true_iff b r

/-- C3 counterexample: the box `offset=(90,90,90), size=(10,10,10)`
touches the exclusive upper boundary of the region
`offset=(0,0,0), size=(100,100,100)` exactly (its end plane
`offset + size` coincides with the region boundary plane on every axis),
yet `check_box_in_build_area` classifies it as inside (true), not
outside (false) as the claim states. -/
theorem boundary_touching_box_classified_inside :
    ivec3 90 90 90 + ivec3 10 10 10 = ivec3 0 0 0 + ivec3 100 100 100 ∧
    check_box_in_build_area ⟨ivec3 90 90 90, ivec3 10 10 10⟩
      ⟨ivec3 0 0 0, ivec3 100 100 100⟩ = true :=
  ⟨rfl, rfl⟩

/-- C3 amended: a candidate box that extends past the exclusive upper
boundary of the region — its inclusive maximum corner lies at or beyond
`r.offset + r.size` on some axis — is classified as outside (false), and
a candidate box that fills the region exactly (`b = r`, with the region
of positive size on every axis) is classified as inside (true). -/
theorem checkBox_past_boundary_false_exact_fill_true :
    (∀ b r : Box,
      (r.offset.x + r.size.x ≤ b.offset.x + b.size.x - 1 ∨
       r.offset.y + r.size.y ≤ b.offset.y + b.size.y - 1 ∨
       r.offset.z + r.size.z ≤ b.offset.z + b.size.z - 1) →
      check_box_in_build_area b r = false) ∧
    (∀ r : Box, 1 ≤ r.size.x → 1 ≤ r.size.y → 1 ≤ r.size.z →
      check_box_in_build_area r r = true) := by
  constructor
  · intro b r h
    apply Bool.eq_false_iff.mpr
    intro hc
    have h2 := (checkBox_true_iff b r).mp hc
    simp only [pointInRegionSpec, Vec3i.add_x, Vec3i.add_y, Vec3i.add_z,
      Vec3i.sub_x, Vec3i.sub_y, Vec3i.sub_z, ivec3_x, ivec3_y, ivec3_z] at h2
    omega
  · intro r hx hy hz
    apply (checkBox_true_iff r r).mpr
    simp only [pointInRegionSpec, Vec3i.add_x, Vec3i.add_y, Vec3i.add_z,
      Vec3i.sub_x, Vec3i.sub_y, Vec3i.sub_z, ivec3_x, ivec3_y, ivec3_z]
    omega

/-- C3 witness: the amended theorem applied at concrete inputs — the box
`offset=(91,0,0), size=(10,10,10)` extends past the region
`offset=(0,0,0), size=(100,100,100)` on the x axis and is classified
outside; the region checked against itself is classified inside. -/
theorem checkBox_past_boundary_false_exact_fill_true_witness :
    check_box_in_build_area ⟨ivec3 91 0 0, ivec3 10 10 10⟩
      ⟨ivec3 0 0 0, ivec3 100 100 100⟩ = false ∧
    check_box_in_build_area ⟨ivec3 0 0 0, ivec3 100 100 100⟩
      ⟨ivec3 0 0 0, ivec3 100 100 100⟩ = true :=
  ⟨checkBox_past_boundary_false_exact_fill_true.1
      ⟨ivec3 91 0 0, ivec3 10 10 10⟩ ⟨ivec3 0 0 0, ivec3 100 100 100⟩
      (Or.inl (by decide)),
   checkBox_past_boundary_false_exact_fill_true.2
      ⟨ivec3 0 0 0, ivec3 100 100 100⟩ (by decide) (by decide) (by decide)⟩

/-- C4: a box with non-positive size on every axis is not rejected at
construction (the `Box` constructor performs no validation, matching the
source) and the containment predicate is evaluated on it, producing a
result: the zero-size box at `(5,5,5)` is reported as contained in the
region `offset=(0,0,0), size=(100,100,100)`. -/
theorem zero_size_box_not_rejected :
    check_box_in_build_area ⟨ivec3 5 5 5, ivec3 0 0 0⟩
      ⟨ivec3 0 0 0, ivec3 100 100 100⟩ = true :=
  rfl

/-- C5: the box `offset=(90,90,90), size=(10,10,10)` checked against the
region `offset=(0,0,0), size=(100,100,100)` yields true: its inclusive
maximum corner is `(99,99,99)`, which lies inside the region. -/
theorem checkBox_touching_upper_edge_true :
    check_box_in_build_area ⟨ivec3 90 90 90, ivec3 10 10 10⟩
      ⟨ivec3 0 0 0, ivec3 100 100 100⟩ = true ∧
    ivec3 90 90 90 + ivec3 10 10 10 - ivec3 1 1 1 = ivec3 99 99 99 ∧
    pointInRegionSpec (ivec3 99 99 99) ⟨ivec3 0 0 0, ivec3 100 100 100⟩ :=
  ⟨rfl, rfl, by decide⟩

/-- C6: boundary cases of `check_build_area` for the region
`offset=(0,0,0), size=(100,100,100)`: the points `(0,0,0)` and
`(99,99,99)` are inside, the points `(100,0,0)` and `(-1,0,0)` are
outside. -/
theorem check_build_area_boundary_points :
    check_build_area (.pyTuple [.pyInt 0, .pyInt 0, .pyInt 0])
      ⟨ivec3 0 0 0, ivec3 100 100 100⟩ = Except.ok true ∧
    check_build_area (.pyTuple [.pyInt 99, .pyInt 99, .pyInt 99])
      ⟨ivec3 0 0 0, ivec3 100 100 100⟩ = Except.ok true ∧
    check_build_area (.pyTuple [.pyInt 100, .pyInt 0, .pyInt 0])
      ⟨ivec3 0 0 0, ivec3 100 100 100⟩ = Except.ok false ∧
    check_build_area (.pyTuple [.pyInt (-1), .pyInt 0, .pyInt 0])
      ⟨ivec3 0 0 0, ivec3 100 100 100⟩ = Except.ok false :=
  ⟨rfl, rfl, rfl, rfl⟩

/-- C7 counterexample: the tuple `(float(inf), 0, 0)` cannot be
interpreted as three integers, yet `vec3i_to_tuple` does not raise
`TypeError` on it: `int(float(inf))` raises `OverflowError`, which the
`except (ValueError, TypeError)` clause does not catch, so
`OverflowError` propagates to the caller. -/
theorem inf_component_escapes_as_overflow :
    vec3i_to_tuple (.pyTuple [.pyFloat .inf, .pyInt 0, .pyInt 0])
      = Except.error PyExc.overflowError ∧
    vec3i_to_tuple (.pyTuple [.pyFloat .inf, .pyInt 0, .pyInt 0])
      ≠ Except.error PyExc.typeError ∧
    ¬ interpretableAsThreeInts (.pyTuple [.pyFloat .inf, .pyInt 0, .pyInt 0]) := by
  refine ⟨rfl, ?_, ?_⟩
  · intro h
    rw [show vec3i_to_tuple (.pyTuple [.pyFloat .inf, .pyInt 0, .pyInt 0])
        = Except.error PyExc.overflowError from rfl] at h
    exact PyExc.noConfusion (Except.error.inj h)
  · rintro (⟨x, y, z, heq, -⟩ | ⟨es, heq | heq, -, hall⟩)
    · cases heq
    · cases heq
    · injection heq with hes
      subst hes
      have h := hall (.pyFloat .inf) (by simp)
      simp [pyToInt, Except.isOk, Except.toBool] at h

/-- C7 amended: `vec3i_to_tuple` succeeds and returns the triple of
converted integers exactly on inputs interpretable as three integers
(objects with `x`/`y`/`z` attributes all convertible with `int()`, and
lists or tuples of exactly three components all convertible with
`int()`); every other input raises, with `TypeError` in every case
except when the first failing component conversion is an infinite
float, in which case an `OverflowError` escapes the
`except (ValueError, TypeError)` handler instead. -/
theorem vec3i_to_tuple_amended_contract (v : PyVec) :
    ((∃ t, vec3i_to_tuple v = Except.ok t) ↔ interpretableAsThreeInts v) ∧
    (¬ interpretableAsThreeInts v →
      vec3i_to_tuple v = Except.error PyExc.typeError ∨
      vec3i_to_tuple v = Except.error PyExc.overflowError) ∧
    (vec3i_to_tuple v = Except.error PyExc.overflowError ↔ overflowFirst v) ∧
    (∀ x y z a b c, v = PyVec.obj x y z →
      pyToInt x = Except.ok a → pyToInt y = Except.ok b → pyToInt z = Except.ok c →
      vec3i_to_tuple v = Except.ok (a, b, c)) ∧
    (∀ e1 e2 e3 a b c,
      (v = PyVec.pyList [e1, e2, e3] ∨ v = PyVec.pyTuple [e1, e2, e3]) →
      pyToInt e1 = Except.ok a → pyToInt e2 = Except.ok b → pyToInt e3 = Except.ok c →
      vec3i_to_tuple v = Except.ok (a, b, c)) := by
  refine ⟨?_, ?_, ?_, ?_, ?_⟩
  · rw [show vec3i_to_tuple v = catchValueTypeError (vec3i_to_tuple_body v) from rfl]
    simp only [catch_ok_iff]
    exact body_ok_iff v
  · intro hni
    rcases hr : vec3i_to_tuple v with e | t
    · cases e with
      | typeError => exact Or.inl rfl
      | valueError => exact absurd hr (catch_ne_valueError (vec3i_to_tuple_body v))
      | overflowError => exact Or.inr rfl
    · exact absurd ((body_ok_iff v).mp ⟨t, (catch_ok_iff (vec3i_to_tuple_body v) t).mp hr⟩) hni
  · rw [show vec3i_to_tuple v = catchValueTypeError (vec3i_to_tuple_body v) from rfl,
      catch_overflow_iff]
    exact body_overflow_iff v
  · intro x y z a b c hv hx hy hz
    subst hv
    rw [show vec3i_to_tuple (PyVec.obj x y z) = catchValueTypeError (conv3 x y z) from rfl,
      conv3_ok_val x y z a b c hx hy hz]
    rfl
  · intro e1 e2 e3 a b c hv hx hy hz
    have hcv := conv3_ok_val e1 e2 e3 a b c hx hy hz
    rcases hv with hv | hv
    · subst hv
      rw [show vec3i_to_tuple (PyVec.pyList [e1, e2, e3])
          = catchValueTypeError (conv3 e1 e2 e3) from rfl, hcv]
      rfl
    · subst hv
      rw [show vec3i_to_tuple (PyVec.pyTuple [e1, e2, e3])
          = catchValueTypeError (conv3 e1 e2 e3) from rfl, hcv]
      rfl

/-- C7 witness: the amended contract applied at concrete inputs — an
object with integer attributes `(4,5,6)` converts to `(4,5,6)`, the
tuple `(7,8,9)` converts to `(7,8,9)`, and a `None` input (not
interpretable) raises `TypeError` or `OverflowError`. -/
theorem vec3i_to_tuple_amended_contract_witness :
    vec3i_to_tuple (.obj (.pyInt 4) (.pyInt 5) (.pyInt 6)) = Except.ok (4, 5, 6) ∧
    vec3i_to_tuple (.pyTuple [.pyInt 7, .pyInt 8, .pyInt 9]) = Except.ok (7, 8, 9) ∧
    (vec3i_to_tuple (.obj .pyNone (.pyInt 0) (.pyInt 0)) = Except.error PyExc.typeError ∨
     vec3i_to_tuple (.obj .pyNone (.pyInt 0) (.pyInt 0)) = Except.error PyExc.overflowError) :=
  ⟨(vec3i_to_tuple_amended_contract _).2.2.2.1 _ _ _ 4 5 6 rfl rfl rfl rfl,
   (vec3i_to_tuple_amended_contract _).2.2.2.2 _ _ _ 7 8 9 (Or.inr rfl) rfl rfl rfl,
   (vec3i_to_tuple_amended_contract _).2.1 (by
     rintro (⟨x, y, z, heq, h1, -⟩ | ⟨es, heq | heq, -, -⟩)
     · injection heq with e1 e2 e3
       subst e1
       simp [pyToInt, Except.isOk, Except.toBool] at h1
     · cases heq
     · cases heq)⟩

/-- C8: both containment predicates are deterministic and pure: with the
module logger state threaded explicitly, evaluation on an integer
3-vector point (or a box) and a region returns the state unchanged, and
the result of any two evaluations on the same inputs is the same,
whatever the states they run in. -/
theorem containment_predicates_pure (p : Vec3i) (b r : Box) (log log2 : List String) :
    (check_build_areaSt (ivec3ToPy p) r log).2 = log ∧
    (check_build_areaSt (ivec3ToPy p) r log).1 = (check_build_areaSt (ivec3ToPy p) r log2).1 ∧
    (check_box_in_build_areaSt b r log).2 = log ∧
    (check_box_in_build_areaSt b r log).1 = (check_box_in_build_areaSt b r log2).1 :=
  ⟨rfl, rfl, rfl, rfl⟩

/-- C9: round trip of the coordinate conversions: a tuple of three
integers sent through `tuple_to_vec3i` then `vec3i_to_tuple` comes back
unchanged, and an integer 3-vector sent through `vec3i_to_tuple` then
`tuple_to_vec3i` comes back unchanged. -/
theorem coordinate_conversion_roundtrip (a b c : Int) (v : Vec3i) :
    (tuple_to_vec3i (.pyTuple [.pyInt a, .pyInt b, .pyInt c])).bind
      (fun w => vec3i_to_tuple (ivec3ToPy w)) = Except.ok (a, b, c) ∧
    (vec3i_to_tuple (ivec3ToPy v)).bind
      (fun t => tuple_to_vec3i (.pyTuple [.pyInt t.1, .pyInt t.2.1, .pyInt t.2.2]))
      = Except.ok v := by
  refine ⟨rfl, ?_⟩
  cases v
  rfl

/-- C10: `vec3i_to_tuple` silently accepts non-integer numeric
components: a list or tuple of three floats converts successfully to the
triple of components truncated toward zero; in particular
`[7.0, 8.1, 9.9]` yields `(7, 8, 9)` and `(-7.9, 8.1, 9.9)` yields
`(-7, 8, 9)`. -/
theorem vec3i_to_tuple_truncates_floats (q1 q2 q3 : Rat) :
    vec3i_to_tuple (.pyList [.pyFloat (.finite q1), .pyFloat (.finite q2), .pyFloat (.finite q3)])
      = Except.ok (pyFloatToInt q1, pyFloatToInt q2, pyFloatToInt q3) ∧
    vec3i_to_tuple (.pyTuple [.pyFloat (.finite q1), .pyFloat (.finite q2), .pyFloat (.finite q3)])
      = Except.ok (pyFloatToInt q1, pyFloatToInt q2, pyFloatToInt q3) ∧
    vec3i_to_tuple (.pyList [.pyFloat (.finite 7), .pyFloat (.finite (81/10)), .pyFloat (.finite (99/10))])
      = Except.ok (7, 8, 9) ∧
    vec3i_to_tuple (.pyTuple [.pyFloat (.finite (-79/10)), .pyFloat (.finite (81/10)), .pyFloat (.finite (99/10))])
      = Except.ok (-7, 8, 9) := by
  refine ⟨rfl, rfl, ?_, ?_⟩
  · have h7 : pyFloatToInt 7 = 7 := by norm_num [pyFloatToInt]
    have h8 : pyFloatToInt (81/10) = 8 := by norm_num [pyFloatToInt]
    have h9 : pyFloatToInt (99/10) = 9 := by norm_num [pyFloatToInt]
    show Except.ok (pyFloatToInt 7, pyFloatToInt (81/10), pyFloatToInt (99/10))
      = Except.ok ((7 : Int), (8 : Int), (9 : Int))
    rw [h7, h8, h9]
  · have h7 : pyFloatToInt (-79/10) = -7 := by
      rw [pyFloatToInt, if_neg (by norm_num),
        show ((-79 : Rat)/10) = -(79/10) by ring, Int.ceil_neg]
      norm_num
    have h8 : pyFloatToInt (81/10) = 8 := by norm_num [pyFloatToInt]
    have h9 : pyFloatToInt (99/10) = 9 := by norm_num [pyFloatToInt]
    show Except.ok (pyFloatToInt (-79/10), pyFloatToInt (81/10), pyFloatToInt (99/10))
      = Except.ok ((-7 : Int), (8 : Int), (9 : Int))
    rw [h7, h8, h9]

end GdpcInterface
